import Mathlib

/-!
Shallow embedding of the video-library signal-extraction and categorization
modules (tempo_detector.py, motion_detector.py, autoplay_detector.py,
ai_tagger.py, auto_categorizer.py, database.py), together with theorems
checking the specification claims against the code.

Numeric values computed by the Python code are modelled exactly over the
rationals; the beat-interval standard deviation (an irrational square root)
is modelled over the reals.  Python round-half-to-even is modelled by
pyRound.
-/

namespace VideoLib

/-- Round-half-to-even on rationals, the semantics of Python builtin round
for a value exactly between two integers; elsewhere it is rounding to the
nearest integer. -/
def pyRoundInt (x : ℚ) : ℤ :=
  if x - Int.floor x = 1 / 2 then
    (if 2 ∣ Int.floor x then Int.floor x else Int.floor x + 1)
  else round x

/-- Python round(x, d): round-half-to-even at d decimal digits. -/
def pyRound (x : ℚ) (d : ℕ) : ℚ :=
  (pyRoundInt (x * 10 ^ d) : ℚ) / 10 ^ d

theorem abs_pyRoundInt_sub (x : ℚ) : |(pyRoundInt x : ℚ) - x| ≤ 1 / 2 := by
  unfold pyRoundInt
  split
  · rename_i h
    split
    · rw [abs_le]
      constructor <;> nlinarith [Int.floor_le x, Int.lt_floor_add_one x]
    · rw [abs_le]
      push_cast
      constructor <;> nlinarith [Int.floor_le x, Int.lt_floor_add_one x]
  · have := abs_sub_round x
    linarith [abs_sub_comm ((round x : ℚ)) x, this, le_of_eq (abs_sub_comm x ((round x : ℚ)))]

theorem pyRoundInt_nonneg {x : ℚ} (hx : 0 ≤ x) : 0 ≤ pyRoundInt x := by
  unfold pyRoundInt
  have hfl : (0:ℤ) ≤ Int.floor x := Int.floor_nonneg.2 hx
  split
  · split
    · exact hfl
    · omega
  · rw [round_eq]
    exact Int.floor_nonneg.2 (by linarith)

theorem pyRoundInt_pos {x : ℚ} (hx : 1 ≤ x) : 1 ≤ pyRoundInt x := by
  unfold pyRoundInt
  have hfl : (1:ℤ) ≤ Int.floor x := Int.le_floor.2 (by exact_mod_cast hx)
  split
  · split
    · exact hfl
    · omega
  · rw [round_eq]
    exact Int.le_floor.2 (by push_cast; linarith)

theorem pyRound_nonneg {x : ℚ} (d : ℕ) (hx : 0 ≤ x) : 0 ≤ pyRound x d := by
  unfold pyRound
  have h1 : (0:ℚ) ≤ (pyRoundInt (x * 10 ^ d) : ℚ) := by
    exact_mod_cast pyRoundInt_nonneg (by positivity)
  positivity

theorem pyRound_le (x : ℚ) (d : ℕ) : pyRound x d ≤ x + 1 / (2 * 10 ^ d) := by
  unfold pyRound
  have h := abs_pyRoundInt_sub (x * 10 ^ d)
  rw [abs_le] at h
  have hd : (0:ℚ) < 10 ^ d := by positivity
  rw [div_le_iff₀ hd]
  have hexp : (x + 1 / (2 * 10 ^ d)) * 10 ^ d = x * 10 ^ d + 1 / 2 := by
    field_simp
    ring
  rw [hexp]
  linarith [h.2]

/-! ## Tempo detection (tempo_detector.py)

TempoDetector.TEMPO_CATEGORIES is an insertion-ordered dict of
category → (min_bpm, max_bpm); _categorize_tempo walks it in order and
returns the first band with min_bpm ≤ bpm < max_bpm, then falls back to
"none" for bpm == 0 and "extremely_fast" otherwise. -/

def TEMPO_CATEGORIES : List (String × ℚ × ℚ) :=
  [("very_slow", 0, 60), ("slow", 60, 90), ("moderate", 90, 120),
   ("fast", 120, 150), ("very_fast", 150, 200), ("extremely_fast", 200, 300)]

/-- First category whose half-open band contains bpm, in dict order. -/
def firstBand : List (String × ℚ × ℚ) → ℚ → Option String
  | [], _ => none
  | (name, lo, hi) :: rest, bpm =>
    if lo ≤ bpm ∧ bpm < hi then some name else firstBand rest bpm

/-- TempoDetector._categorize_tempo. -/
def categorize_tempo (bpm : ℚ) : String :=
  match firstBand TEMPO_CATEGORIES bpm with
  | some c => c
  | none => if bpm = 0 then "none" else "extremely_fast"

/-! ## Motion detection (motion_detector.py) -/

/-- MotionDetector.MOTION_LEVELS: name, lower bound, upper bound
(none models float inf, against which every finite value compares <). -/
def MOTION_LEVELS : List (String × ℚ × Option ℚ) :=
  [("static", 0, some (1/2)), ("slow", 1/2, some 2), ("moderate", 2, some 5),
   ("fast", 5, some 10), ("intense", 10, none)]

/-- First motion level whose band contains the magnitude, in dict order. -/
def firstLevel : List (String × ℚ × Option ℚ) → ℚ → Option String
  | [], _ => none
  | (name, lo, some hi) :: rest, m =>
    if lo ≤ m ∧ m < hi then some name else firstLevel rest m
  | (name, lo, none) :: rest, m =>
    if lo ≤ m then some name else firstLevel rest m

/-- MotionDetector._classify_motion_level. -/
def classify_motion_level (m : ℚ) : String :=
  match firstLevel MOTION_LEVELS m with
  | some c => c
  | none => "intense"

/-- Arithmetic mean of a list of rationals (np.mean). -/
def qmean (l : List ℚ) : ℚ := l.sum / l.length

/-- The motion-analysis result dictionary. -/
structure MotionSignal where
  motion_level : String
  motion_score : ℚ
  optical_flow_magnitude : ℚ
  motion_areas_percentage : ℚ
  camera_motion : Bool
  object_motion : Bool
deriving DecidableEq

/-- The static/zero signal returned for degenerate clips. -/
def neutralMotionSignal : MotionSignal :=
  ⟨"static", 0, 0, 0, false, false⟩

/-- A clip as MotionDetector.analyze_motion observes it: whether OpenCV
could open it, its reported frame count, and the per-sampled-pair optical
flow average magnitudes and motion-area percentages the flow computation
yields (oracle values for the cv2 numeric results). -/
structure Clip where
  opened : Bool
  total_frames : ℕ
  flow_magnitudes : List ℚ
  flow_areas : List ℚ

/-- MotionDetector.analyze_motion: Python returns None when the capture
cannot be opened, the neutral signal when fewer than 2 frames or when no
flow samples were collected, and otherwise aggregates the flow samples. -/
def analyze_motion (c : Clip) : Option MotionSignal :=
  if c.opened = false then none
  else if c.total_frames < 2 then some neutralMotionSignal
  else if c.flow_magnitudes.isEmpty then some neutralMotionSignal
  else
    let avgMag := qmean c.flow_magnitudes
    let avgArea := qmean c.flow_areas
    some
      { motion_level := classify_motion_level avgMag
        motion_score := pyRound (min 100 (avgMag * 10)) 2
        optical_flow_magnitude := pyRound avgMag 3
        motion_areas_percentage := pyRound avgArea 2
        camera_motion := decide (60 < avgArea)
        object_motion := decide (avgArea < 40 ∧ 1 < avgMag) }

/-! ## Tempo signal construction (TempoDetector.analyze_tempo)

The beat tracker (librosa) is an oracle returning a tempo estimate and a
list of beat timestamps; analyze_tempo post-processes them.  np.std is an
irrational square root, so stability lives in ℝ. -/

/-- np.diff: consecutive differences of the beat timestamps. -/
def intervals (l : List ℚ) : List ℚ := List.zipWith (fun a b => a - b) l.tail l

/-- Population variance (the square of np.std). -/
def qvar (l : List ℚ) : ℚ := ((l.map fun x => (x - qmean l) ^ 2).sum) / l.length

/-- np.std of a list of rationals, as a real number. -/
noncomputable def qstd (l : List ℚ) : ℝ := Real.sqrt ((qvar l : ℚ) : ℝ)

/-- tempo_stability: 1 - std/mean of the beat intervals when the mean is
positive (0 otherwise), clamped into the unit interval; 0 when fewer than
2 beats were returned. -/
noncomputable def tempoStability (beats : List ℚ) : ℝ :=
  if 1 < beats.length then
    max 0 (min 1
      (if 0 < qmean (intervals beats) then
        1 - qstd (intervals beats) / ((qmean (intervals beats) : ℚ) : ℝ)
      else 0))
  else 0

/-- has_rhythm = len(beats) > 4 and tempo_stability > 0.3. -/
def hasRhythm (beats : List ℚ) : Prop :=
  4 < beats.length ∧ (3 / 10 : ℝ) < tempoStability beats

/-- The fields of the analyze_tempo result dictionary that the invariant
claims concern. -/
structure TempoSignal where
  bpm : ℚ
  has_rhythm : Prop
  num_beats : ℕ

/-- TempoDetector.analyze_tempo, as a function of the tempo estimate and
the beat timestamps the tracker returned: bpm is the estimate rounded to
2 decimal places. -/
def analyze_tempo (tempo : ℚ) (beats : List ℚ) : TempoSignal :=
  { bpm := pyRound tempo 2
    has_rhythm := hasRhythm beats
    num_beats := beats.length }

/-! ## Autoplay compatibility (autoplay_detector.py) -/

def WEB_COMPATIBLE_CONTAINERS : List String := [".mp4", ".webm", ".ogv"]

/-- Python str.lower for the ASCII strings involved (file extensions). -/
def lowerString (s : String) : String := ⟨s.data.map Char.toLower⟩

/-- Python substring test (the in operator) on lists. -/
def hasSubstr {α : Type} [BEq α] (p : List α) : List α → Bool
  | [] => p.isEmpty
  | a :: t => p.isPrefixOf (a :: t) || hasSubstr p t

/-- The critical markers _determine_compatibility scans issues for. -/
def CRITICAL_MARKERS : List (List Char) :=
  [String.toList "may not be web-compatible", String.toList "Unknown codec"]

def isCriticalIssue (issue : List Char) : Bool :=
  CRITICAL_MARKERS.any fun m => hasSubstr m issue

/-- The fields of the analyze_video result that _determine_compatibility
reads. -/
structure CompatResult where
  error : Bool
  container_format : String
  compatibility_issues : List (List Char)

/-- AutoplayDetector._determine_compatibility: false on error; false when
the container is outside the whitelist; false when some issue carries a
critical marker unless the container is ".mp4"; true otherwise. -/
def determine_compatibility (r : CompatResult) : Bool :=
  if r.error then false
  else if r.container_format ∉ WEB_COMPATIBLE_CONTAINERS then false
  else if r.compatibility_issues.any
      (fun issue => isCriticalIssue issue && decide (r.container_format ≠ ".mp4")) then
    false
  else true

/-- The pure skeleton of AutoplayDetector.analyze_video: the container
field is the lowercased extension of the input path and the verdict comes
from _determine_compatibility (the issue list aggregates container, codec
and size warnings, left abstract here). -/
def analyze_video_compatible (ext : String) (issues : List (List Char)) : Bool :=
  determine_compatibility
    { error := false, container_format := lowerString ext, compatibility_issues := issues }

/-! ### MP4 fast-start scan (_check_mp4_faststart) -/

def FTYP : List ℕ := [102, 116, 121, 112]

def MOOV : List ℕ := [109, 111, 111, 118]

def MDAT : List ℕ := [109, 100, 97, 116]

/-- int.from_bytes(_, big) on a 4-byte list. -/
def beNat32 (l : List ℕ) : ℕ := l.foldl (fun acc b => acc * 256 + b) 0

/-- Fuel bound for the box walk: each step advances the offset by more
than 8 bytes and the walk stops past 1MB, so 1048576 steps can never be
exhausted. -/
def SCAN_FUEL : ℕ := 1048576

/-- The box-header walk of _check_mp4_faststart: at offset pos read an
8-byte header (stop if short), return true on a moov type, false on mdat,
stop on a non-advancing size or once past the 1MB bound, else skip to the
next box. -/
def atomScan : ℕ → List ℕ → ℕ → Bool
  | 0, _, _ => false
  | fuel + 1, data, pos =>
    if ((data.drop pos).take 8).length < 8 then false
    else if ((data.drop pos).take 8).drop 4 = MOOV then true
    else if ((data.drop pos).take 8).drop 4 = MDAT then false
    else if beNat32 (((data.drop pos).take 8).take 4) ≤ 8 then false
    else if 1048576 < pos + beNat32 (((data.drop pos).take 8).take 4) then false
    else atomScan fuel data (pos + beNat32 (((data.drop pos).take 8).take 4))

/-- The same walk, reporting which of moov/mdat is met first among the
scanned box headers: some true for moov, some false for mdat, none when
the scan stops without meeting either. -/
def scanVerdict : ℕ → List ℕ → ℕ → Option Bool
  | 0, _, _ => none
  | fuel + 1, data, pos =>
    if ((data.drop pos).take 8).length < 8 then none
    else if ((data.drop pos).take 8).drop 4 = MOOV then some true
    else if ((data.drop pos).take 8).drop 4 = MDAT then some false
    else if beNat32 (((data.drop pos).take 8).take 4) ≤ 8 then none
    else if 1048576 < pos + beNat32 (((data.drop pos).take 8).take 4) then none
    else scanVerdict fuel data (pos + beNat32 (((data.drop pos).take 8).take 4))

/-- AutoplayDetector._check_mp4_faststart on the raw bytes: requires an
8-byte header containing "ftyp", then walks the boxes from offset 0. -/
def check_mp4_faststart (data : List ℕ) : Bool :=
  if (data.take 8).length < 8 then false
  else if hasSubstr FTYP (data.take 8) then atomScan SCAN_FUEL data 0
  else false

/-- The first of moov/mdat among the box headers the bounded scan visits
(none when nothing is scanned, i.e. short or non-ftyp header). -/
def scanned_prefix_verdict (data : List ℕ) : Option Bool :=
  if (data.take 8).length < 8 then none
  else if hasSubstr FTYP (data.take 8) then scanVerdict SCAN_FUEL data 0
  else none

/-- Synthetic MP4: ftyp box, then a moov box, then an mdat box. -/
def synthMoovFirst : List ℕ :=
  ([0, 0, 0, 16] ++ FTYP ++ [0, 0, 0, 0, 0, 0, 0, 0]) ++
  ([0, 0, 0, 16] ++ MOOV ++ [0, 0, 0, 0, 0, 0, 0, 0]) ++
  ([0, 0, 0, 16] ++ MDAT ++ [0, 0, 0, 0, 0, 0, 0, 0])

/-- The same bytes with the moov and mdat boxes swapped. -/
def synthMdatFirst : List ℕ :=
  ([0, 0, 0, 16] ++ FTYP ++ [0, 0, 0, 0, 0, 0, 0, 0]) ++
  ([0, 0, 0, 16] ++ MDAT ++ [0, 0, 0, 0, 0, 0, 0, 0]) ++
  ([0, 0, 0, 16] ++ MOOV ++ [0, 0, 0, 0, 0, 0, 0, 0])

theorem atomScan_eq_verdict (fuel : ℕ) (data : List ℕ) (pos : ℕ) :
    (atomScan fuel data pos = true ↔ scanVerdict fuel data pos = some true) := by
  induction fuel generalizing pos with
  | zero => simp [atomScan, scanVerdict]
  | succ n ih =>
    rw [atomScan, scanVerdict]
    split_ifs <;> simp [ih]

/-! ## Dominant color extraction (AITagger.extract_dominant_colors)

cv2.kmeans is an oracle returning per-pixel cluster labels and cluster
centers (BGR); the function counts labels per cluster, converts centers to
RGB, rounds each percentage to 3 decimals and sorts descending. -/

structure ColorEntry where
  rgb : ℕ × ℕ × ℕ
  percentage : ℚ
deriving DecidableEq

/-- BGR center to RGB tuple. -/
def bgrToRgb (t : ℕ × ℕ × ℕ) : ℕ × ℕ × ℕ := (t.2.2, t.2.1, t.1)

/-- AITagger.extract_dominant_colors: one entry per requested cluster
index i in 0..num_colors-1 (a cluster with no pixels gets count 0), with
percentage = count / total pixels rounded to 3 decimals, sorted by
percentage descending (Python stable sort with reverse=True). -/
def extract_dominant_colors (labels : List ℕ) (centers : List (ℕ × ℕ × ℕ))
    (num_colors : ℕ) : List ColorEntry :=
  ((List.range num_colors).map fun i =>
    { rgb := bgrToRgb (centers.getD i (0, 0, 0))
      percentage := pyRound ((labels.count i : ℚ) / labels.length) 3 }).mergeSort
    fun a b => decide (b.percentage ≤ a.percentage)

/-! ## Auto-categorization (auto_categorizer.py, database.py) -/

/-- One entry of AutoCategorizer.CATEGORY_HIERARCHY: main category name,
keyword list, subcategories as (original name, lowercased name). -/
structure CatEntry where
  name : String
  keywords : List (List Char)
  subcategories : List (String × List Char)

/-- AutoCategorizer.CATEGORY_HIERARCHY. -/
def CATEGORY_HIERARCHY : List CatEntry :=
  [⟨"Nature",
    [String.toList "nature", String.toList "natural", String.toList "outdoor",
     String.toList "landscape", String.toList "scenic", String.toList "wilderness"],
    [("Forest", String.toList "forest"), ("Ocean", String.toList "ocean"),
     ("Mountains", String.toList "mountains"), ("Sky", String.toList "sky"),
     ("Desert", String.toList "desert"), ("Wildlife", String.toList "wildlife"),
     ("Flowers", String.toList "flowers"), ("Weather", String.toList "weather")]⟩,
   ⟨"Urban",
    [String.toList "city", String.toList "urban", String.toList "building",
     String.toList "street", String.toList "downtown", String.toList "metropolitan",
     String.toList "architecture"],
    [("City", String.toList "city"), ("Street", String.toList "street"),
     ("Architecture", String.toList "architecture"), ("Traffic", String.toList "traffic"),
     ("Night City", String.toList "night city"), ("Downtown", String.toList "downtown")]⟩,
   ⟨"Abstract",
    [String.toList "abstract", String.toList "geometric", String.toList "pattern",
     String.toList "particle", String.toList "fluid", String.toList "fractal",
     String.toList "light"],
    [("Geometric", String.toList "geometric"), ("Particles", String.toList "particles"),
     ("Fluid", String.toList "fluid"), ("Patterns", String.toList "patterns"),
     ("Light Effects", String.toList "light effects"), ("Fractals", String.toList "fractals")]⟩,
   ⟨"Space",
    [String.toList "space", String.toList "star", String.toList "planet",
     String.toList "galaxy", String.toList "cosmic", String.toList "universe",
     String.toList "nebula", String.toList "celestial"],
    [("Stars", String.toList "stars"), ("Planets", String.toList "planets"),
     ("Nebula", String.toList "nebula"), ("Galaxy", String.toList "galaxy"),
     ("Astronaut", String.toList "astronaut"), ("Satellites", String.toList "satellites")]⟩,
   ⟨"Water",
    [String.toList "water", String.toList "ocean", String.toList "sea",
     String.toList "river", String.toList "lake", String.toList "rain",
     String.toList "waves", String.toList "underwater"],
    [("Ocean", String.toList "ocean"), ("River", String.toList "river"),
     ("Lake", String.toList "lake"), ("Rain", String.toList "rain"),
     ("Waterfall", String.toList "waterfall"), ("Underwater", String.toList "underwater")]⟩,
   ⟨"Fire",
    [String.toList "fire", String.toList "flame", String.toList "burn",
     String.toList "spark", String.toList "explosion", String.toList "heat",
     String.toList "candle"],
    [("Flames", String.toList "flames"), ("Sparks", String.toList "sparks"),
     ("Explosion", String.toList "explosion"), ("Candles", String.toList "candles"),
     ("Campfire", String.toList "campfire")]⟩,
   ⟨"Technology",
    [String.toList "tech", String.toList "digital", String.toList "computer",
     String.toList "code", String.toList "data", String.toList "interface",
     String.toList "screen", String.toList "cyber"],
    [("Digital", String.toList "digital"), ("Code", String.toList "code"),
     ("Interface", String.toList "interface"), ("Data", String.toList "data"),
     ("Glitch", String.toList "glitch"), ("Futuristic", String.toList "futuristic")]⟩,
   ⟨"People",
    [String.toList "people", String.toList "person", String.toList "human",
     String.toList "crowd", String.toList "portrait", String.toList "silhouette",
     String.toList "group"],
    [("Portraits", String.toList "portraits"), ("Groups", String.toList "groups"),
     ("Activities", String.toList "activities"), ("Silhouettes", String.toList "silhouettes"),
     ("Crowds", String.toList "crowds")]⟩,
   ⟨"Textures",
    [String.toList "texture", String.toList "material", String.toList "surface",
     String.toList "wood", String.toList "metal", String.toList "fabric",
     String.toList "stone"],
    [("Wood", String.toList "wood"), ("Metal", String.toList "metal"),
     ("Fabric", String.toList "fabric"), ("Stone", String.toList "stone"),
     ("Paper", String.toList "paper"), ("Glass", String.toList "glass")]⟩,
   ⟨"Motion",
    [String.toList "timelapse", String.toList "slow motion", String.toList "movement",
     String.toList "motion", String.toList "dynamic", String.toList "action"],
    [("Timelapse", String.toList "timelapse"), ("Slow Motion", String.toList "slow motion"),
     ("Spin", String.toList "spin"), ("Zoom", String.toList "zoom"),
     ("Pan", String.toList "pan"), ("Tracking", String.toList "tracking")]⟩]

/-- The subcategory loop of categorize_video: walks the subcategories
with the running score, emitting a "Main > Sub" entry valued at the
running score plus 5 at each match, and returns the final score. -/
def subScores (catName : String) (tagText : List Char) :
    List (String × List Char) → ℕ → List (String × ℕ) × ℕ
  | [], score => ([], score)
  | (subName, subLower) :: rest, score =>
    if hasSubstr subLower tagText then
      ((catName ++ " > " ++ subName, score + 3 + 5) ::
        (subScores catName tagText rest (score + 3)).1,
       (subScores catName tagText rest (score + 3)).2)
    else subScores catName tagText rest score

/-- The category_scores dict of categorize_video in insertion order:
per main category, keyword hits are worth 2 each, then the subcategory
entries, then the main-category entry when its score is positive. -/
def categoryScores (tagText : List Char) : List CatEntry → List (String × ℕ)
  | [] => []
  | c :: rest =>
    (subScores c.name tagText c.subcategories
        (2 * c.keywords.countP fun k => hasSubstr k tagText)).1 ++
    (if 0 < (subScores c.name tagText c.subcategories
        (2 * c.keywords.countP fun k => hasSubstr k tagText)).2 then
      [(c.name, (subScores c.name tagText c.subcategories
        (2 * c.keywords.countP fun k => hasSubstr k tagText)).2)]
     else []) ++
    categoryScores tagText rest

/-- Python max(dict, key=dict.get): the first key attaining the maximal
value, in insertion order. -/
def argmaxFirst : List (String × ℕ) → Option (String × ℕ)
  | [] => none
  | x :: xs =>
    match argmaxFirst xs with
    | none => some x
    | some y => if x.2 < y.2 then some y else some x

/-- The video row fields categorize_video reads. -/
structure VideoRecord where
  tags : List (List Char)
  category : Option String
deriving DecidableEq

/-- The SQL row fetch inside VideoDatabase.get_video_details
(cursor.fetchone() on SELECT * FROM videos WHERE id = ?): none models the
absence of a matching row. -/
def dbLookup (db : List (ℕ × VideoRecord)) (id : ℕ) : Option VideoRecord :=
  (db.find? fun e => e.1 == id).map (·.2)

/-- VideoDatabase.update_video_category: UPDATE videos SET category = ?
WHERE id = ?. -/
def update_video_category (db : List (ℕ × VideoRecord)) (id : ℕ) (cat : String) :
    List (ℕ × VideoRecord) :=
  db.map fun e => if e.1 = id then (e.1, { e.2 with category := some cat }) else e

/-- tag_text: the space-join of the lowercased tag values. -/
def tagTextOf (v : VideoRecord) : List Char :=
  List.intercalate [' '] (v.tags.map (List.map Char.toLower))

/-- AutoCategorizer.categorize_video.  For a missing id,
get_video_details does dict(cursor.fetchone()) on an absent row, which
raises TypeError, so the call propagates an exception without assigning
anything (modelled as none; the code's own "if not video" guard is
unreachable since a fetched row always yields a truthy dict).  A present
video with no tags returns "Uncategorized" without touching the database;
otherwise the best-scoring candidate (or "Uncategorized" when no
candidate) is persisted via update_video_category. -/
def categorize_video (db : List (ℕ × VideoRecord)) (id : ℕ) :
    Option (String × List (ℕ × VideoRecord)) :=
  match dbLookup db id with
  | none => none
  | some v =>
    if v.tags.isEmpty then some ("Uncategorized", db)
    else
      let best :=
        match argmaxFirst (categoryScores (tagTextOf v) CATEGORY_HIERARCHY) with
        | some e => e.1
        | none => "Uncategorized"
      some (best, update_video_category db id best)

/-! ### Use-case suitability (AutoCategorizer.suggest_use_cases)

The code fixes a dict of 12 named rule sets; the embedding is over an
arbitrary list of named rules with the same shape, each criterion
optional exactly as a key may be absent from a rule dict. -/

structure UseCaseRule where
  keywords : Option (List (List Char))
  moods : Option (List String)
  motion : Option (List String)
  categories : Option (List (List Char))
  energy_min : Option ℚ
  energy_max : Option ℚ
deriving DecidableEq

/-- The video characteristics suggest_use_cases reads: lowercased category
string, space-joined lowercased tag text, mood types, motion level and
energy level. -/
structure VideoTraits where
  category : List Char
  tag_text : List Char
  moods : List String
  motion_level : String
  energy : ℚ

/-- Achieved score: keywords 2 each, mood match 3, motion match 2 (only
when the video has a motion level), category substring match 3 (only when
the video has a category), energy bounds 2 each. -/
def ruleScore (v : VideoTraits) (r : UseCaseRule) : ℕ :=
  (match r.keywords with
   | none => 0
   | some ks => 2 * ks.countP fun k => hasSubstr k v.tag_text) +
  (match r.moods with
   | none => 0
   | some ms => if v.moods.any (fun m => ms.contains m) then 3 else 0) +
  (match r.motion with
   | none => 0
   | some mo =>
     if v.motion_level ≠ "" then (if mo.contains v.motion_level then 2 else 0) else 0) +
  (match r.categories with
   | none => 0
   | some cs =>
     if v.category ≠ [] then
       (if cs.any (fun c => hasSubstr (c.map Char.toLower) v.category) then 3 else 0)
     else 0) +
  (match r.energy_min with
   | none => 0
   | some e => if e ≤ v.energy then 2 else 0) +
  (match r.energy_max with
   | none => 0
   | some e => if v.energy ≤ e then 2 else 0)

/-- Maximum-possible score: a criterion contributes its weight exactly
when the code's corresponding branch is entered (key present, and for
motion/categories a non-empty video attribute). -/
def ruleMaxScore (v : VideoTraits) (r : UseCaseRule) : ℕ :=
  (match r.keywords with
   | none => 0
   | some ks => 2 * ks.length) +
  (match r.moods with
   | none => 0
   | some _ => 3) +
  (match r.motion with
   | none => 0
   | some _ => if v.motion_level ≠ "" then 2 else 0) +
  (match r.categories with
   | none => 0
   | some _ => if v.category ≠ [] then 3 else 0) +
  (match r.energy_min with
   | none => 0
   | some _ => 2) +
  (match r.energy_max with
   | none => 0
   | some _ => 2)

/-- suitability = (score / max_score) * 100. -/
def suitability (v : VideoTraits) (r : UseCaseRule) : ℚ :=
  (ruleScore v r : ℚ) / (ruleMaxScore v r : ℚ) * 100

/-- AutoCategorizer.suggest_use_cases: emit (name, rounded suitability)
for rules with positive maximum and suitability ≥ 30, sorted descending
by the stored (rounded) suitability. -/
def suggest_use_cases (v : VideoTraits) (rules : List (String × UseCaseRule)) :
    List (String × ℚ) :=
  (rules.filterMap fun nr =>
    if 0 < ruleMaxScore v nr.2 ∧ 30 ≤ suitability v nr.2 then
      some (nr.1, pyRound (suitability v nr.2) 1)
    else none).mergeSort fun a b => decide (b.2 ≤ a.2)

/-! ## Claim theorems -/

/-- C1: the spec demands that bpm = 0 always yields the category "none",
and the code even carries an explicit bpm == 0 → "none" branch; but the
band walk precedes that branch and the very_slow band [0, 60) already
contains 0, so the code returns "very_slow" at bpm = 0 and the "none"
branch is unreachable for bpm ≥ 0: the code contradicts its own intent. -/
theorem claim_C1_bpm_zero :
    categorize_tempo 0 = "very_slow" ∧ categorize_tempo 0 ≠ "none" := by
  decide

/-- C2: the motion classifier is total on [0, ∞), returns exactly one of
the five levels, the five half-open bands partition [0, ∞), and each
boundary value (1/2, 2, 5, 10) falls in its upper band. -/
theorem claim_C2_motion_partition (m : ℚ) (hm : 0 ≤ m) :
    classify_motion_level m ∈ ["static", "slow", "moderate", "fast", "intense"] ∧
    (classify_motion_level m = "static" ↔ m < 1 / 2) ∧
    (classify_motion_level m = "slow" ↔ 1 / 2 ≤ m ∧ m < 2) ∧
    (classify_motion_level m = "moderate" ↔ 2 ≤ m ∧ m < 5) ∧
    (classify_motion_level m = "fast" ↔ 5 ≤ m ∧ m < 10) ∧
    (classify_motion_level m = "intense" ↔ 10 ≤ m) := by
  have hc : classify_motion_level m =
      if m < 1 / 2 then "static" else if m < 2 then "slow"
      else if m < 5 then "moderate" else if m < 10 then "fast" else "intense" := by
    simp only [classify_motion_level, firstLevel, MOTION_LEVELS]
    rcases lt_or_le m (1 / 2) with h1 | h1
    · rw [if_pos (And.intro hm h1), if_pos h1]
    rcases lt_or_le m 2 with h2 | h2
    · rw [if_neg (fun hand => absurd hand.2 (not_lt.mpr h1)), if_pos (And.intro h1 h2),
        if_neg (not_lt.mpr h1), if_pos h2]
    rcases lt_or_le m 5 with h3 | h3
    · rw [if_neg (fun hand => absurd hand.2 (not_lt.mpr (by linarith : (1:ℚ)/2 ≤ m))),
        if_neg (fun hand => absurd hand.2 (not_lt.mpr h2)), if_pos (And.intro h2 h3),
        if_neg (not_lt.mpr (by linarith : (1:ℚ)/2 ≤ m)), if_neg (not_lt.mpr h2), if_pos h3]
    rcases lt_or_le m 10 with h4 | h4
    · rw [if_neg (fun hand => absurd hand.2 (not_lt.mpr (by linarith : (1:ℚ)/2 ≤ m))),
        if_neg (fun hand => absurd hand.2 (not_lt.mpr (by linarith : (2:ℚ) ≤ m))),
        if_neg (fun hand => absurd hand.2 (not_lt.mpr h3)), if_pos (And.intro h3 h4),
        if_neg (not_lt.mpr (by linarith : (1:ℚ)/2 ≤ m)),
        if_neg (not_lt.mpr (by linarith : (2:ℚ) ≤ m)), if_neg (not_lt.mpr h3), if_pos h4]
    · rw [if_neg (fun hand => absurd hand.2 (not_lt.mpr (by linarith : (1:ℚ)/2 ≤ m))),
        if_neg (fun hand => absurd hand.2 (not_lt.mpr (by linarith : (2:ℚ) ≤ m))),
        if_neg (fun hand => absurd hand.2 (not_lt.mpr (by linarith : (5:ℚ) ≤ m))),
        if_neg (fun hand => absurd hand.2 (not_lt.mpr h4)),
        if_pos (by linarith : (10:ℚ) ≤ m),
        if_neg (not_lt.mpr (by linarith : (1:ℚ)/2 ≤ m)),
        if_neg (not_lt.mpr (by linarith : (2:ℚ) ≤ m)),
        if_neg (not_lt.mpr (by linarith : (5:ℚ) ≤ m)), if_neg (not_lt.mpr h4)]
  rw [hc]
  split_ifs with h1 h2 h3 h4 <;>
    refine ⟨by decide, ?_, ?_, ?_, ?_, ?_⟩ <;> (constructor <;> intro h) <;>
    first
    | rfl
    | linarith
    | exact ⟨by linarith, by linarith⟩
    | exact absurd h (by decide)

/-- C2 witness: the boundary magnitude 1/2 is classified into the upper
band "slow". -/
theorem claim_C2_witness : classify_motion_level (1 / 2) = "slow" :=
  ((claim_C2_motion_partition (1 / 2) (by norm_num)).2.2.1).mpr
    ⟨le_refl _, by norm_num⟩

/-- C4 counterexample: a clip that cannot be opened makes analyze_motion
return None (no signal at all), not the neutral static/zero signal the
claim promises. -/
theorem claim_C4_counterexample :
    analyze_motion ⟨false, 0, [], []⟩ = none ∧
    ¬ analyze_motion ⟨false, 0, [], []⟩ = some neutralMotionSignal := by
  constructor
  · rfl
  · simp [analyze_motion]

/-- C4 amended: every clip that opens but has fewer than 2 frames yields
the neutral static/zero signal; an unopenable clip instead yields None. -/
theorem claim_C4_few_frames (c : Clip) (hopen : c.opened = true)
    (hframes : c.total_frames < 2) :
    analyze_motion c = some neutralMotionSignal := by
  unfold analyze_motion
  rw [hopen]
  simp [hframes]

/-- C4 witness: a one-frame clip produces the neutral signal. -/
theorem claim_C4_witness :
    analyze_motion ⟨true, 1, [], []⟩ = some neutralMotionSignal :=
  claim_C4_few_frames ⟨true, 1, [], []⟩ rfl (by decide)

/-- C5: whenever the lowercased extension is outside the container
whitelist, the compatibility verdict is false regardless of the issue
list (hence regardless of any codecs detected or assumed). -/
theorem claim_C5_container_whitelist (ext : String) (issues : List (List Char))
    (h : lowerString ext ∉ WEB_COMPATIBLE_CONTAINERS) :
    analyze_video_compatible ext issues = false := by
  unfold analyze_video_compatible determine_compatibility
  simp [h]

/-- C5 witness: a ".mkv" file is never autoplay-compatible. -/
theorem claim_C5_witness : analyze_video_compatible ".mkv" [] = false :=
  claim_C5_container_whitelist ".mkv" [] (by decide)

/-- C3: the fast-start check returns true exactly when the first of the
moov/mdat box types met by the bounded header walk is moov (so a moov
header precedes any mdat header in the scanned prefix), and the two
synthetic buffers differing only in the moov/mdat order yield true and
false respectively. -/
theorem claim_C3_faststart :
    (∀ data : List ℕ,
      check_mp4_faststart data = true ↔ scanned_prefix_verdict data = some true) ∧
    check_mp4_faststart synthMoovFirst = true ∧
    check_mp4_faststart synthMdatFirst = false := by
  refine ⟨fun data => ?_, by decide, by decide⟩
  unfold check_mp4_faststart scanned_prefix_verdict
  split_ifs <;> simp [atomScan_eq_verdict]

/-- C3 witness: on the moov-first synthetic buffer the scanned prefix
verdict is moov-first. -/
theorem claim_C3_witness : scanned_prefix_verdict synthMoovFirst = some true :=
  (claim_C3_faststart.1 synthMoovFirst).mp claim_C3_faststart.2.1

theorem tempoStability_regular : tempoStability [0, 1, 2, 3, 4, 5] = 1 := by
  have hints : intervals [0, 1, 2, 3, 4, 5] = [1, 1, 1, 1, 1] := by
    norm_num [intervals]
  have hmean : qmean [1, 1, 1, 1, 1] = 1 := by norm_num [qmean]
  have hvar : qvar [1, 1, 1, 1, 1] = 0 := by norm_num [qvar, qmean]
  rw [tempoStability, if_pos (by norm_num), hints, hmean]
  norm_num [qstd, hvar]

/-- C9 counterexample: with a zero tempo estimate and six perfectly
regular beats, the produced signal has has_rhythm true and bpm = 0, so
has_rhythm does not imply bpm > 0. -/
theorem claim_C9_counterexample :
    (analyze_tempo 0 [0, 1, 2, 3, 4, 5]).has_rhythm ∧
    ¬ 0 < (analyze_tempo 0 [0, 1, 2, 3, 4, 5]).bpm := by
  constructor
  · refine ⟨by norm_num, ?_⟩
    rw [tempoStability_regular]
    norm_num
  · show ¬ 0 < pyRound 0 2
    norm_num [pyRound, pyRoundInt, round_eq]

/-- C9 amended: has_rhythm implies bpm > 0 provided the tracker's raw
tempo estimate is at least 0.01 (one unit of the 2-decimal rounding);
with a zero tempo estimate a has_rhythm signal carries bpm = 0. -/
theorem claim_C9_amended (tempo : ℚ) (beats : List ℚ)
    (htempo : 1 / 100 ≤ tempo) :
    (analyze_tempo tempo beats).has_rhythm → 0 < (analyze_tempo tempo beats).bpm := by
  intro _
  show 0 < pyRound tempo 2
  unfold pyRound
  have h1 : (1 : ℚ) ≤ tempo * 10 ^ 2 := by nlinarith
  have h2 : (1 : ℚ) ≤ (pyRoundInt (tempo * 10 ^ 2) : ℚ) := by
    exact_mod_cast pyRoundInt_pos h1
  exact div_pos (by linarith) (by norm_num)

/-- C9 witness: a 120-bpm estimate with six regular beats has rhythm and
positive bpm. -/
theorem claim_C9_witness : 0 < (analyze_tempo 120 [0, 1, 2, 3, 4, 5]).bpm :=
  claim_C9_amended 120 [0, 1, 2, 3, 4, 5] (by norm_num)
    ⟨by norm_num, by rw [tempoStability_regular]; norm_num⟩

theorem argmaxFirst_mem :
    ∀ {l : List (String × ℕ)} {x : String × ℕ}, argmaxFirst l = some x → x ∈ l := by
  intro l
  induction l with
  | nil => intro x h; simp [argmaxFirst] at h
  | cons a t ih =>
    intro x h
    rw [argmaxFirst] at h
    cases ht : argmaxFirst t with
    | none =>
      rw [ht] at h
      exact List.mem_cons.mpr (Or.inl (Option.some_injective _ h).symm)
    | some y =>
      rw [ht] at h
      dsimp only at h
      by_cases hc : a.2 < y.2
      · rw [if_pos hc] at h
        refine List.mem_cons.mpr (Or.inr (ih ?_))
        rw [ht, h]
      · rw [if_neg hc] at h
        exact List.mem_cons.mpr (Or.inl (Option.some_injective _ h).symm)

theorem subScores_entry {catName : String} {tagText : List Char} :
    ∀ (subs : List (String × List Char)) (base : ℕ) (p : String × ℕ),
      p ∈ (subScores catName tagText subs base).1 →
      0 < p.2 ∧ ∃ sn, p.1 = catName ++ " > " ++ sn := by
  intro subs
  induction subs with
  | nil => intro base p hp; simp [subScores] at hp
  | cons s rest ih =>
    intro base p hp
    rcases s with ⟨subName, subLower⟩
    rw [subScores] at hp
    by_cases hc : hasSubstr subLower tagText = true
    · rw [if_pos hc] at hp
      rcases List.mem_cons.mp hp with h | h
      · subst h
        exact ⟨by omega, subName, rfl⟩
      · exact ih _ p h
    · rw [if_neg hc] at hp
      exact ih _ p hp

theorem categoryScores_entry {tagText : List Char} :
    ∀ (hier : List CatEntry) (p : String × ℕ), p ∈ categoryScores tagText hier →
      0 < p.2 ∧ ∃ c ∈ hier, (p.1 = c.name ∨ ∃ sn, p.1 = c.name ++ " > " ++ sn) := by
  intro hier
  induction hier with
  | nil => intro p hp; simp [categoryScores] at hp
  | cons c rest ih =>
    intro p hp
    rw [categoryScores] at hp
    rcases List.mem_append.mp hp with h | h
    rcases List.mem_append.mp h with h1 | h1
    · obtain ⟨hpos, sn, hsn⟩ := subScores_entry c.subcategories _ p h1
      exact ⟨hpos, c, List.mem_cons_self c rest, Or.inr ⟨sn, hsn⟩⟩
    · by_cases hpos : 0 < (subScores c.name tagText c.subcategories
          (2 * c.keywords.countP fun k => hasSubstr k tagText)).2
      · rw [if_pos hpos] at h1
        rcases List.mem_cons.mp h1 with h2 | h2
        · subst h2
          exact ⟨hpos, c, List.mem_cons_self c rest, Or.inl rfl⟩
        · simp at h2
      · rw [if_neg hpos] at h1
        simp at h1
    · obtain ⟨hp2, c', hc', hsh⟩ := ih p h
      exact ⟨hp2, c', List.mem_cons_of_mem c hc', hsh⟩

theorem categoryScores_key_ne_empty {tagText : List Char} {p : String × ℕ}
    (hp : p ∈ categoryScores tagText CATEGORY_HIERARCHY) : p.1 ≠ "" := by
  obtain ⟨-, c, hc, hshape⟩ := categoryScores_entry CATEGORY_HIERARCHY p hp
  have hname : c.name.length ≠ 0 := by
    fin_cases hc <;> decide
  rcases hshape with h | ⟨sn, h⟩
  · rw [h]
    intro hbad
    exact hname (by simp [hbad])
  · rw [h]
    intro hbad
    have hlen := congrArg String.length hbad
    rw [String.length_append, String.length_append] at hlen
    simp at hlen
    omega

theorem dbLookup_update (db : List (ℕ × VideoRecord)) (id : ℕ) (cat : String) :
    dbLookup (update_video_category db id cat) id =
      (dbLookup db id).map fun w => { w with category := some cat } := by
  induction db with
  | nil => rfl
  | cons e rest ih =>
    simp only [update_video_category, List.map_cons] at ih ⊢
    by_cases h : e.1 = id
    · rw [if_pos h]
      simp [dbLookup, List.find?_cons, h]
    · rw [if_neg h]
      simp only [dbLookup, List.find?_cons] at ih ⊢
      have hbeq : (e.1 == id) = false := beq_eq_false_iff_ne.mpr h
      rw [hbeq]
      simpa using ih

/-- C7 counterexample: for a stored video that has a prior category but
no tags, categorize_video returns "Uncategorized" and leaves the store
untouched, so the persisted category after the call ("Nature") differs
from the returned path. -/
theorem claim_C7_counterexample :
    categorize_video [(1, ⟨[], some "Nature"⟩)] 1 =
      some ("Uncategorized", [(1, ⟨[], some "Nature"⟩)]) ∧
    (dbLookup [(1, ⟨[], some "Nature"⟩)] 1).bind VideoRecord.category = some "Nature" ∧
    some "Nature" ≠ some "Uncategorized" := by
  decide

/-- C7 amended: whenever the video row exists and carries at least one
tag, the call succeeds, persists exactly the returned path (overwriting
the prior assignment), the path is non-empty, and it is either a
positive-scoring candidate or the sentinel "Uncategorized". -/
theorem claim_C7_categorize_persists (db : List (ℕ × VideoRecord)) (id : ℕ)
    (v : VideoRecord) (hv : dbLookup db id = some v)
    (htags : v.tags.isEmpty = false) :
    ∃ ret db2, categorize_video db id = some (ret, db2) ∧
      (dbLookup db2 id).bind VideoRecord.category = some ret ∧
      ret ≠ "" ∧
      (ret = "Uncategorized" ∨
        ∃ s, (ret, s) ∈ categoryScores (tagTextOf v) CATEGORY_HIERARCHY ∧ 0 < s) := by
  cases hm : argmaxFirst (categoryScores (tagTextOf v) CATEGORY_HIERARCHY) with
  | none =>
    have hcv : categorize_video db id =
        some ("Uncategorized", update_video_category db id "Uncategorized") := by
      unfold categorize_video
      rw [hv]
      simp [htags, hm]
    refine ⟨"Uncategorized", update_video_category db id "Uncategorized", hcv,
      ?_, by simp, Or.inl rfl⟩
    rw [dbLookup_update, hv]
    rfl
  | some e =>
    have hmem := argmaxFirst_mem hm
    have hpos := (categoryScores_entry CATEGORY_HIERARCHY e hmem).1
    have hcv : categorize_video db id =
        some (e.1, update_video_category db id e.1) := by
      unfold categorize_video
      rw [hv]
      simp [htags, hm]
    refine ⟨e.1, update_video_category db id e.1, hcv,
      ?_, categoryScores_key_ne_empty hmem, Or.inr ⟨e.2, hmem, hpos⟩⟩
    rw [dbLookup_update, hv]
    rfl

/-- C7 witness: a tagged video gets its computed category persisted. -/
theorem claim_C7_witness :
    ∃ ret db2,
      categorize_video [(1, ⟨[String.toList "nature"], none⟩)] 1 = some (ret, db2) ∧
      (dbLookup db2 1).bind VideoRecord.category = some ret ∧
      ret ≠ "" ∧
      (ret = "Uncategorized" ∨
        ∃ s, (ret, s) ∈ categoryScores (tagTextOf ⟨[String.toList "nature"], none⟩)
          CATEGORY_HIERARCHY ∧ 0 < s) :=
  claim_C7_categorize_persists [(1, ⟨[String.toList "nature"], none⟩)] 1
    ⟨[String.toList "nature"], none⟩ (by decide) rfl

/-- C6: the suggested use cases are sorted descending by the stored
suitability, and an entry is emitted exactly for the rules with a
positive maximum score (so an empty rule set is never emitted) whose
suitability percentage 100 * achieved / max reaches 30, carrying that
percentage rounded to one decimal. -/
theorem claim_C6_use_case_scores (v : VideoTraits) (rules : List (String × UseCaseRule)) :
    List.Sorted (fun a b : String × ℚ => b.2 ≤ a.2) (suggest_use_cases v rules) ∧
    ∀ e : String × ℚ, e ∈ suggest_use_cases v rules ↔
      ∃ r, (e.1, r) ∈ rules ∧ 0 < ruleMaxScore v r ∧ 30 ≤ suitability v r ∧
        e.2 = pyRound (suitability v r) 1 := by
  constructor
  · have hp := @List.sorted_mergeSort (String × ℚ)
      (fun a b : String × ℚ => decide (b.2 ≤ a.2))
      (fun a b c h1 h2 => by
        simp only [decide_eq_true_eq] at *
        exact le_trans h2 h1)
      (fun a b => by
        simp only [Bool.or_eq_true, decide_eq_true_eq]
        exact le_total b.2 a.2)
      (rules.filterMap fun nr =>
        if 0 < ruleMaxScore v nr.2 ∧ 30 ≤ suitability v nr.2 then
          some (nr.1, pyRound (suitability v nr.2) 1)
        else none)
    exact hp.imp fun hab => of_decide_eq_true hab
  · intro e
    unfold suggest_use_cases
    rw [List.Perm.mem_iff (List.mergeSort_perm _ _), List.mem_filterMap]
    constructor
    · rintro ⟨a, ha, hfa⟩
      by_cases hcond : 0 < ruleMaxScore v a.2 ∧ 30 ≤ suitability v a.2
      · rw [if_pos hcond] at hfa
        have heq := Option.some_injective _ hfa
        refine ⟨a.2, ?_, hcond.1, hcond.2, ?_⟩
        · rw [← heq]
          simpa using ha
        · rw [← heq]
      · rw [if_neg hcond] at hfa
        exact absurd hfa (by simp)
    · rintro ⟨r, hr, hmax, hsuit, he2⟩
      refine ⟨(e.1, r), hr, ?_⟩
      rw [if_pos ⟨hmax, hsuit⟩, ← he2]

/-- C6 witness: a rule with a single matched keyword scores 100 percent
and is emitted. -/
theorem claim_C6_witness :
    (("A", (100 : ℚ)) ∈ suggest_use_cases
      ⟨[], String.toList "fun", [], "", 50⟩
      [("A", ⟨some [String.toList "fun"], none, none, none, none, none⟩)]) := by
  have hs : ruleScore ⟨[], String.toList "fun", [], "", 50⟩
      ⟨some [String.toList "fun"], none, none, none, none, none⟩ = 2 := by decide
  have hm : ruleMaxScore ⟨[], String.toList "fun", [], "", 50⟩
      ⟨some [String.toList "fun"], none, none, none, none, none⟩ = 2 := by decide
  refine ((claim_C6_use_case_scores ⟨[], String.toList "fun", [], "", 50⟩
      [("A", ⟨some [String.toList "fun"], none, none, none, none, none⟩)]).2
      ("A", 100)).mpr
    ⟨⟨some [String.toList "fun"], none, none, none, none, none⟩, by decide, ?_, ?_, ?_⟩
  · rw [hm]
    norm_num
  · simp only [suitability]
    rw [hs, hm]
    norm_num
  · simp only [suitability]
    rw [hs, hm]
    norm_num [pyRound, pyRoundInt, round_eq]

theorem pyRound_zero (d : ℕ) : pyRound 0 d = 0 := by
  simp [pyRound, pyRoundInt]

theorem list_sum_map_add {α M : Type} [AddCommMonoid M] (l : List α) (f g : α → M) :
    (l.map fun x => f x + g x).sum = (l.map f).sum + (l.map g).sum := by
  induction l with
  | nil => simp
  | cons a t ih =>
    simp only [List.map_cons, List.sum_cons, ih]
    abel

theorem sum_indicator_range (a k : ℕ) :
    (((List.range k).map fun i => if a = i then 1 else 0).sum) =
      if a < k then 1 else 0 := by
  induction k with
  | zero => simp
  | succ n ih =>
    rw [List.range_succ, List.map_append, List.sum_append, ih]
    simp only [List.map_cons, List.map_nil, List.sum_cons, List.sum_nil]
    split_ifs <;> omega

theorem sum_counts_le (l : List ℕ) (k : ℕ) :
    (((List.range k).map fun i => l.count i).sum) ≤ l.length := by
  induction l with
  | nil => simp
  | cons a t ih =>
    have hmap : ((List.range k).map fun i => (a :: t).count i) =
        (List.range k).map fun i => t.count i + if a = i then 1 else 0 := by
      simp [List.count_cons]
    rw [hmap, list_sum_map_add]
    have h2 : (((List.range k).map fun i => if a = i then 1 else 0).sum) ≤ 1 := by
      rw [sum_indicator_range]
      split <;> omega
    simp only [List.length_cons]
    omega

theorem sum_const_range (n : ℕ) (c : ℚ) :
    (((List.range n).map fun _ => c).sum) = n * c := by
  induction n with
  | zero => simp
  | succ m ih =>
    rw [List.range_succ, List.map_append, List.sum_append, ih]
    push_cast
    simp
    ring

/-- The fraction of pixels assigned to each of the first k clusters sums
to at most 1, for any label assignment. -/
theorem sum_fractions_le_one (labels : List ℕ) (k : ℕ) :
    (((List.range k).map fun i => (labels.count i : ℚ) / labels.length).sum) ≤ 1 := by
  by_cases hT : labels.length = 0
  · have hz : (((List.range k).map fun i =>
        (labels.count i : ℚ) / labels.length).sum) = 0 := by
      apply List.sum_eq_zero
      intro x hx
      simp only [List.mem_map] at hx
      obtain ⟨i, -, rfl⟩ := hx
      rw [hT]
      simp
    rw [hz]
    norm_num
  · have hTpos : (0 : ℚ) < (labels.length : ℚ) := by
      exact_mod_cast Nat.pos_of_ne_zero hT
    have hcast : (((List.range k).map fun i => (labels.count i : ℚ)).sum) ≤
        (labels.length : ℚ) := by
      have h2 : ((((List.range k).map fun i => labels.count i).sum : ℕ) : ℚ) ≤
          (labels.length : ℚ) := by
        exact_mod_cast sum_counts_le labels k
      rw [Nat.cast_list_sum, List.map_map] at h2
      simpa [Function.comp] using h2
    have hmap : ((List.range k).map fun i => (labels.count i : ℚ) / labels.length) =
        (List.range k).map fun i => (labels.count i : ℚ) * (1 / labels.length) := by
      apply List.map_congr_left
      intro i _
      rw [div_eq_mul_one_div]
    rw [hmap, List.sum_map_mul_right]
    calc (((List.range k).map fun i => (labels.count i : ℚ)).sum) * (1 / labels.length)
        ≤ (labels.length : ℚ) * (1 / labels.length) := by
          apply mul_le_mul_of_nonneg_right hcast
          positivity
      _ = 1 := by
          rw [mul_one_div, div_self (ne_of_gt hTpos)]

/-- C8 amended: every returned percentage is non-negative, the entries
are sorted descending by percentage, and the (3-decimal-rounded)
percentages sum to at most 1 + k * 0.0005; the unrounded cluster
fractions sum to at most 1, but per-entry rounding can push the stored
sum above 1 + 1e-6. -/
theorem claim_C8_palette_sums (labels : List ℕ) (centers : List (ℕ × ℕ × ℕ)) (k : ℕ) :
    (∀ e ∈ extract_dominant_colors labels centers k, 0 ≤ e.percentage) ∧
    List.Sorted (fun a b : ColorEntry => b.percentage ≤ a.percentage)
      (extract_dominant_colors labels centers k) ∧
    ((extract_dominant_colors labels centers k).map ColorEntry.percentage).sum ≤
      1 + (k : ℚ) / 2000 := by
  have hperm : (extract_dominant_colors labels centers k).Perm
      ((List.range k).map fun i =>
        { rgb := bgrToRgb (centers.getD i (0, 0, 0))
          percentage := pyRound ((labels.count i : ℚ) / labels.length) 3 }) :=
    List.mergeSort_perm _ _
  refine ⟨?_, ?_, ?_⟩
  · intro e he
    have hmem := hperm.mem_iff.mp he
    simp only [List.mem_map, List.mem_range] at hmem
    obtain ⟨i, -, rfl⟩ := hmem
    exact pyRound_nonneg 3 (by positivity)
  · have hp := @List.sorted_mergeSort ColorEntry
      (fun a b : ColorEntry => decide (b.percentage ≤ a.percentage))
      (fun a b c h1 h2 => by
        simp only [decide_eq_true_eq] at *
        exact le_trans h2 h1)
      (fun a b => by
        simp only [Bool.or_eq_true, decide_eq_true_eq]
        exact le_total b.percentage a.percentage)
      ((List.range k).map fun i =>
        { rgb := bgrToRgb (centers.getD i (0, 0, 0))
          percentage := pyRound ((labels.count i : ℚ) / labels.length) 3 })
    exact hp.imp fun hab => of_decide_eq_true hab
  · rw [(hperm.map ColorEntry.percentage).sum_eq, List.map_map]
    have hpoint : ∀ i ∈ List.range k,
        (ColorEntry.percentage ∘ fun i =>
          ({ rgb := bgrToRgb (centers.getD i (0, 0, 0))
             percentage := pyRound ((labels.count i : ℚ) / labels.length) 3 } : ColorEntry)) i ≤
        (labels.count i : ℚ) / labels.length + 1 / 2000 := by
      intro i _
      have h := pyRound_le ((labels.count i : ℚ) / labels.length) 3
      have h2 : (labels.count i : ℚ) / labels.length + 1 / (2 * 10 ^ 3) =
          (labels.count i : ℚ) / labels.length + 1 / 2000 := by norm_num
      rw [h2] at h
      simpa using h
    calc ((List.range k).map (ColorEntry.percentage ∘ fun i =>
          ({ rgb := bgrToRgb (centers.getD i (0, 0, 0))
             percentage := pyRound ((labels.count i : ℚ) / labels.length) 3 } : ColorEntry))).sum
        ≤ ((List.range k).map fun i =>
            (labels.count i : ℚ) / labels.length + 1 / 2000).sum :=
          List.sum_le_sum hpoint
      _ = (((List.range k).map fun i => (labels.count i : ℚ) / labels.length).sum) +
          (((List.range k).map fun _ => (1 : ℚ) / 2000).sum) := list_sum_map_add _ _ _
      _ ≤ 1 + (k : ℚ) / 2000 := by
          rw [sum_const_range, mul_one_div]
          have := sum_fractions_le_one labels k
          linarith

/-- C8 witness: a one-pixel, one-cluster frame obeys the rounded-sum
bound. -/
theorem claim_C8_witness :
    ((extract_dominant_colors [0] [] 1).map ColorEntry.percentage).sum ≤
      1 + ((1 : ℕ) : ℚ) / 2000 :=
  (claim_C8_palette_sums [0] [] 1).2.2

/-- A kmeans label assignment with clusters of 12, 12 and 22476 pixels
out of the 22500 sampled ones (and two empty clusters). -/
def c8labels : List ℕ :=
  List.replicate 12 0 ++ List.replicate 12 1 ++ List.replicate 22476 2

theorem c8labels_count_0 : c8labels.count 0 = 12 := by
  unfold c8labels
  rw [List.count_append, List.count_append, List.count_replicate,
    List.count_replicate, List.count_replicate]
  decide

theorem c8labels_count_1 : c8labels.count 1 = 12 := by
  unfold c8labels
  rw [List.count_append, List.count_append, List.count_replicate,
    List.count_replicate, List.count_replicate]
  decide

theorem c8labels_count_2 : c8labels.count 2 = 22476 := by
  unfold c8labels
  rw [List.count_append, List.count_append, List.count_replicate,
    List.count_replicate, List.count_replicate]
  decide

theorem c8labels_count_3 : c8labels.count 3 = 0 := by
  unfold c8labels
  rw [List.count_append, List.count_append, List.count_replicate,
    List.count_replicate, List.count_replicate]
  decide

theorem c8labels_count_4 : c8labels.count 4 = 0 := by
  unfold c8labels
  rw [List.count_append, List.count_append, List.count_replicate,
    List.count_replicate, List.count_replicate]
  decide

theorem c8labels_length : ((c8labels.length : ℕ) : ℚ) = 22500 := by
  unfold c8labels
  rw [List.length_append, List.length_append, List.length_replicate,
    List.length_replicate, List.length_replicate]
  norm_num

/-- The 5-cluster palette sum in terms of the five cluster counts. -/
theorem extract_sum5 (labels : List ℕ) (centers : List (ℕ × ℕ × ℕ))
    (c0 c1 c2 c3 c4 : ℕ) (T : ℚ)
    (h0 : labels.count 0 = c0) (h1 : labels.count 1 = c1) (h2 : labels.count 2 = c2)
    (h3 : labels.count 3 = c3) (h4 : labels.count 4 = c4)
    (hT : ((labels.length : ℕ) : ℚ) = T) :
    ((extract_dominant_colors labels centers 5).map ColorEntry.percentage).sum =
      pyRound ((c0 : ℚ) / T) 3 + (pyRound ((c1 : ℚ) / T) 3 +
        (pyRound ((c2 : ℚ) / T) 3 + (pyRound ((c3 : ℚ) / T) 3 +
          (pyRound ((c4 : ℚ) / T) 3 + 0)))) := by
  unfold extract_dominant_colors
  rw [((List.mergeSort_perm _ _).map ColorEntry.percentage).sum_eq, List.map_map]
  have hr : List.range 5 = [0, 1, 2, 3, 4] := by decide
  rw [hr]
  simp only [List.map_cons, List.map_nil, List.sum_cons, List.sum_nil, Function.comp]
  rw [h0, h1, h2, h3, h4, hT]

/-- C8 counterexample: with cluster sizes 12, 12, 22476, 0, 0 out of the
22500 sampled pixels, the stored 3-decimal-rounded percentages are 0.001,
0.001, 0.999, 0, 0, summing to 1.001, which exceeds the claimed bound of
1.0 within 1e-6. -/
theorem claim_C8_counterexample :
    ¬ (((extract_dominant_colors c8labels [] 5).map ColorEntry.percentage).sum ≤
      1 + 1 / 1000000) := by
  rw [extract_sum5 c8labels [] 12 12 22476 0 0 22500 c8labels_count_0
    c8labels_count_1 c8labels_count_2 c8labels_count_3 c8labels_count_4
    c8labels_length]
  norm_num [pyRound, pyRoundInt, round_eq]

/-- C10: extract_dominant_colors returns exactly k entries, and a cluster
with zero assigned pixels still appears, carrying percentage 0. -/
theorem claim_C10_palette_arity (labels : List ℕ) (centers : List (ℕ × ℕ × ℕ)) (k : ℕ) :
    (extract_dominant_colors labels centers k).length = k ∧
    ∀ i, i < k → labels.count i = 0 →
      ∃ e ∈ extract_dominant_colors labels centers k,
        e.rgb = bgrToRgb (centers.getD i (0, 0, 0)) ∧ e.percentage = 0 := by
  constructor
  · unfold extract_dominant_colors
    rw [List.length_mergeSort, List.length_map, List.length_range]
  · intro i hik hcount
    have hmem : (⟨bgrToRgb (centers.getD i (0, 0, 0)),
        pyRound ((labels.count i : ℚ) / labels.length) 3⟩ : ColorEntry) ∈
        (List.range k).map fun i =>
          (⟨bgrToRgb (centers.getD i (0, 0, 0)),
            pyRound ((labels.count i : ℚ) / labels.length) 3⟩ : ColorEntry) :=
      List.mem_map_of_mem _ (List.mem_range.mpr hik)
    unfold extract_dominant_colors
    refine ⟨_, (List.mergeSort_perm _ _).mem_iff.mpr hmem, rfl, ?_⟩
    show pyRound ((labels.count i : ℚ) / labels.length) 3 = 0
    rw [hcount]
    norm_num [pyRound_zero]

/-- C10 witness: with three pixels all in cluster 0 and k = 2, the empty
cluster 1 still contributes an entry with percentage 0. -/
theorem claim_C10_witness :
    ∃ e ∈ extract_dominant_colors [0, 0, 0] [(1, 2, 3), (4, 5, 6)] 2,
      e.rgb = bgrToRgb (([(1, 2, 3), (4, 5, 6)] : List (ℕ × ℕ × ℕ)).getD 1 (0, 0, 0)) ∧
      e.percentage = 0 :=
  (claim_C10_palette_arity [0, 0, 0] [(1, 2, 3), (4, 5, 6)] 2).2 1 (by norm_num) (by decide)

end VideoLib
